import Mathlib

/-!
Verification of the hinge-loss and training-driver functions of
`biggan/training.py` (jkyl/biggan-deep), as a shallow embedding in Lean 4.

Tensors of real-valued scores are embedded as `List ℚ` — the flattened
elements, in exact rational arithmetic (every concrete floating-point
value is a rational, and `ℚ` keeps every definition executable);
`tf.reduce_sum` is the sum of all elements, `tf.nn.relu` is
pointwise `max x 0`.  Python arithmetic that can raise is embedded in
`Except PyError`: `1.0 / n` with an `int` divisor and `a // n` raise
`ZeroDivisionError` when `n = 0`.  Python's `//` on ints is floor
division, i.e. `Int.fdiv`.
-/

namespace BigGAN

/-- Kinds of runtime failure relevant to this module: the Python
`ZeroDivisionError` actually raised by division, and the validated
`InvalidArgument` kind that the design documentation prescribes. -/
inductive PyError where
  | zeroDivisionError
  | invalidArgument
  deriving DecidableEq, Repr

/-- Python `x / n` for a float `x` and int `n`: raises `ZeroDivisionError`
when `n = 0`, otherwise real division. -/
def pyFloatDivInt (x : ℚ) (n : ℤ) : Except PyError ℚ :=
  if n = 0 then .error .zeroDivisionError else .ok (x / (n : ℚ))

/-- Python `a // n` on ints: raises `ZeroDivisionError` when `n = 0`,
otherwise floor division (`Int.fdiv`, rounding toward negative infinity). -/
def pyIntFloorDiv (a n : ℤ) : Except PyError ℤ :=
  if n = 0 then .error .zeroDivisionError else .ok (Int.fdiv a n)

/-- `tf.nn.relu` on a scalar: `max x 0`. -/
def relu (x : ℚ) : ℚ := max x 0

/-- `tf.reduce_sum`: sum of all elements of the tensor. -/
def reduce_sum (t : List ℚ) : ℚ := t.sum

/-- `discriminator_hinge_loss` from `biggan/training.py`:
`L_D = tf.reduce_sum(tf.nn.relu(1.0 - logits_real))
     + tf.reduce_sum(tf.nn.relu(1.0 + logits_fake))`,
returned as `L_D * (1.0 / global_batch_size)`.  The reciprocal
`1.0 / global_batch_size` is the only failure point. -/
def discriminator_hinge_loss (logits_real logits_fake : List ℚ)
    (global_batch_size : ℤ) : Except PyError ℚ :=
  let L_D := reduce_sum (logits_real.map (fun x => relu (1 - x)))
           + reduce_sum (logits_fake.map (fun x => relu (1 + x)))
  match pyFloatDivInt 1 global_batch_size with
  | .error e => .error e
  | .ok inv => .ok (L_D * inv)

/-- `generator_hinge_loss` from `biggan/training.py`:
`L_G = -tf.reduce_sum(logits_fake)`, returned as
`L_G * (1.0 / global_batch_size)`. -/
def generator_hinge_loss (logits_fake : List ℚ)
    (global_batch_size : ℤ) : Except PyError ℚ :=
  let L_G := -(reduce_sum logits_fake)
  match pyFloatDivInt 1 global_batch_size with
  | .error e => .error e
  | .ok inv => .ok (L_G * inv)

/-- `full_hinge_loss` from `biggan/training.py`: the pair
`(generator_hinge_loss(logits_fake, b), discriminator_hinge_loss(logits_real,
logits_fake, b))`, in that order; the generator call is evaluated first. -/
def full_hinge_loss (logits_real logits_fake : List ℚ)
    (global_batch_size : ℤ) : Except PyError (ℚ × ℚ) :=
  match generator_hinge_loss logits_fake global_batch_size with
  | .error e => .error e
  | .ok g =>
    match discriminator_hinge_loss logits_real logits_fake global_batch_size with
    | .error e => .error e
    | .ok d => .ok (g, d)

/-- `imperative_minimize` from `biggan/training.py`.  The gradient tape is
embedded as an abstract `gradient` function from the scalar loss and the
variable list to a gradient list; the optimizer as an abstract
`apply_gradients` state transformer on optimizer-and-variable state `O`.
The zero-argument `loss_fn` may have side effects, embedded as explicit
state passing on `σ`: the single `let r := loss_fn s` is its one
evaluation.  The update is `apply_gradients (zip grad var_list)` and the
scalar loss actually computed is returned. -/
def imperative_minimize {V G O σ : Type}
    (gradient : ℚ → List V → List G)
    (apply_gradients : List (G × V) → O → O)
    (loss_fn : σ → ℚ × σ) (var_list : List V)
    (s : σ) (opt : O) : ℚ × σ × O :=
  let r := loss_fn s
  let grad := gradient r.1 var_list
  (r.1, r.2, apply_gradients (grad.zip var_list) opt)

/-- Python `initial_step or 0`, where `initial_step` may be `None` (the
`int` annotation on `train_model` is unenforced at runtime: unlike the
loss functions, `train_model` carries no `@typechecked` decorator).
`None` and `0` are falsy, any other int is truthy. -/
def pyOrZero : Option ℤ → ℤ
  | none => 0
  | some n => if n = 0 then 0 else n

/-- Epoch schedule handed to `model.fit` by `train_model`. -/
structure FitSchedule where
  epochs : ℤ
  steps_per_epoch : ℤ
  initial_epoch : ℤ
  deriving DecidableEq, Repr

/-- Schedule arithmetic of `train_model` from `biggan/training.py`:
`epochs = num_steps // log_every`, `steps_per_epoch = log_every`,
`initial_epoch = (initial_step or 0) // log_every`. -/
def train_model_schedule (num_steps log_every : ℤ)
    (initial_step : Option ℤ) : Except PyError FitSchedule :=
  match pyIntFloorDiv num_steps log_every with
  | .error e => .error e
  | .ok epochs =>
    match pyIntFloorDiv (pyOrZero initial_step) log_every with
    | .error e => .error e
    | .ok initial_epoch =>
      .ok { epochs := epochs, steps_per_epoch := log_every,
            initial_epoch := initial_epoch }

/-! Helper lemmas shared by the claim theorems. -/

/-- Python `n or 0` is `n` itself for any int `n` (0 is falsy but `0 or 0 = 0`). -/
theorem pyOrZero_some (n : ℤ) : pyOrZero (some n) = n := by
  by_cases h : n = 0 <;> simp [pyOrZero, h]

/-- Evaluation of `discriminator_hinge_loss` at a nonzero batch size. -/
theorem discriminator_hinge_loss_ok (r f : List ℚ) (b : ℤ) (hb : b ≠ 0) :
    discriminator_hinge_loss r f b =
      .ok ((reduce_sum (r.map (fun x => relu (1 - x)))
          + reduce_sum (f.map (fun x => relu (1 + x)))) * (1 / (b : ℚ))) := by
  simp [discriminator_hinge_loss, pyFloatDivInt, hb]

/-- Evaluation of `generator_hinge_loss` at a nonzero batch size. -/
theorem generator_hinge_loss_ok (f : List ℚ) (b : ℤ) (hb : b ≠ 0) :
    generator_hinge_loss f b = .ok (-(reduce_sum f) * (1 / (b : ℚ))) := by
  simp [generator_hinge_loss, pyFloatDivInt, hb]

/-- Sums of pointwise relu images are non-negative. -/
theorem reduce_sum_relu_nonneg (t : List ℚ) (g : ℚ → ℚ) :
    0 ≤ reduce_sum (t.map (fun x => relu (g x))) := by
  apply List.sum_nonneg
  intro x hx
  simp only [List.mem_map] at hx
  obtain ⟨y, _, rfl⟩ := hx
  exact le_max_right _ _

/-- C1: for every pair of rational score tensors and positive integer
batch size, `discriminator_hinge_loss` returns
`(sum(max(0, 1 - logits_real)) + sum(max(0, 1 + logits_fake))) / global_batch_size`;
in particular `logits_real = [1], logits_fake = [-1], b = 1` gives `0`,
and `logits_real = [0], logits_fake = [0], b = 1` gives `2`. -/
theorem C1_discriminator_hinge_loss_formula (r f : List ℚ) (b : ℤ) (hb : 0 < b) :
    discriminator_hinge_loss r f b =
      .ok (((r.map (fun x => max 0 (1 - x))).sum
          + (f.map (fun x => max 0 (1 + x))).sum) / (b : ℚ))
    ∧ discriminator_hinge_loss [1] [-1] 1 = .ok 0
    ∧ discriminator_hinge_loss [0] [0] 1 = .ok 2 := by
  refine ⟨?_, ?_, ?_⟩
  · rw [discriminator_hinge_loss_ok r f b hb.ne']
    simp [reduce_sum, relu, mul_one_div, max_comm, div_eq_mul_inv]
  · norm_num [discriminator_hinge_loss, pyFloatDivInt, reduce_sum, relu]
  · norm_num [discriminator_hinge_loss, pyFloatDivInt, reduce_sum, relu]

/-- C1 witness: the theorem instantiated at `r = [1]`, `f = [-1]`, `b = 1`. -/
theorem C1_witness :
    (0 : ℤ) < 1 ∧
    (discriminator_hinge_loss [1] [-1] 1 =
      .ok ((([1].map (fun x => max 0 (1 - x))).sum
          + ([-1].map (fun x => max 0 (1 + x))).sum) / ((1 : ℤ) : ℚ))
    ∧ discriminator_hinge_loss [1] [-1] 1 = .ok 0
    ∧ discriminator_hinge_loss [0] [0] 1 = .ok 2) :=
  ⟨by norm_num, C1_discriminator_hinge_loss_formula [1] [-1] 1 (by norm_num)⟩

/-- C2: for every rational score tensor and positive integer batch size,
`generator_hinge_loss` returns `-sum(logits_fake) / global_batch_size`;
in particular `logits_fake = [3, -3], b = 1` gives `0`. -/
theorem C2_generator_hinge_loss_formula (f : List ℚ) (b : ℤ) (hb : 0 < b) :
    generator_hinge_loss f b = .ok (-(f.sum) / (b : ℚ))
    ∧ generator_hinge_loss [3, -3] 1 = .ok 0 := by
  constructor
  · rw [generator_hinge_loss_ok f b hb.ne']
    simp [reduce_sum, mul_one_div, div_eq_mul_inv, neg_mul]
  · norm_num [generator_hinge_loss, pyFloatDivInt, reduce_sum]

/-- C2 witness: the theorem instantiated at `f = [3, -3]`, `b = 1`. -/
theorem C2_witness :
    (0 : ℤ) < 1 ∧
    (generator_hinge_loss [3, -3] 1 = .ok (-(([3, -3] : List ℚ).sum) / ((1 : ℤ) : ℚ))
    ∧ generator_hinge_loss [3, -3] 1 = .ok 0) :=
  ⟨by norm_num, C2_generator_hinge_loss_formula [3, -3] 1 (by norm_num)⟩

/-- Composition of `full_hinge_loss` out of its two components. -/
theorem full_hinge_loss_ok (r f : List ℚ) (b : ℤ) (g d : ℚ)
    (hg : generator_hinge_loss f b = .ok g)
    (hd : discriminator_hinge_loss r f b = .ok d) :
    full_hinge_loss r f b = .ok (g, d) := by
  simp [full_hinge_loss, hg, hd]

/-- C3: whenever the two loss functions independently return values `g`
and `d`, `full_hinge_loss` returns exactly the pair `(g, d)`, generator
loss first. -/
theorem C3_full_hinge_loss_pair (r f : List ℚ) (b : ℤ) (g d : ℚ)
    (hg : generator_hinge_loss f b = .ok g)
    (hd : discriminator_hinge_loss r f b = .ok d) :
    full_hinge_loss r f b = .ok (g, d) :=
  full_hinge_loss_ok r f b g d hg hd

/-- C3 witness: at `r = [1]`, `f = [-1]`, `b = 1` the components are
`g = 1` and `d = 0`, and `full_hinge_loss` returns `(1, 0)`. -/
theorem C3_witness :
    generator_hinge_loss [-1] 1 = .ok 1
    ∧ discriminator_hinge_loss [1] [-1] 1 = .ok 0
    ∧ full_hinge_loss [1] [-1] 1 = .ok (1, 0) :=
  ⟨by norm_num [generator_hinge_loss, pyFloatDivInt, reduce_sum],
   by norm_num [discriminator_hinge_loss, pyFloatDivInt, reduce_sum, relu],
   C3_full_hinge_loss_pair [1] [-1] 1 1 0
     (by norm_num [generator_hinge_loss, pyFloatDivInt, reduce_sum])
     (by norm_num [discriminator_hinge_loss, pyFloatDivInt, reduce_sum, relu])⟩

/-- C4 counterexample: at `logits_real = [0]`, `logits_fake = [0]`,
`global_batch_size = -1`, all three hinge loss functions return
successfully — the discriminator loss silently sign-flipped to `-2` —
instead of failing; and at `global_batch_size = 0` the failure is a
`ZeroDivisionError` division fault, not an `InvalidArgument`-kind error. -/
theorem C4_counterexample :
    discriminator_hinge_loss [0] [0] (-1) = .ok (-2)
    ∧ generator_hinge_loss [0] (-1) = .ok 0
    ∧ full_hinge_loss [0] [0] (-1) = .ok (0, -2)
    ∧ discriminator_hinge_loss [0] [0] 0 = .error .zeroDivisionError
    ∧ discriminator_hinge_loss [0] [0] 0 ≠ .error .invalidArgument := by
  refine ⟨?_, ?_, ?_, ?_, ?_⟩
  · norm_num [discriminator_hinge_loss, pyFloatDivInt, reduce_sum, relu]
  · norm_num [generator_hinge_loss, pyFloatDivInt, reduce_sum]
  · norm_num [full_hinge_loss, generator_hinge_loss, discriminator_hinge_loss,
      pyFloatDivInt, reduce_sum, relu]
  · simp [discriminator_hinge_loss, pyFloatDivInt]
  · simp [discriminator_hinge_loss, pyFloatDivInt]

/-- C4 amended: no hinge loss function validates `global_batch_size`.
At `global_batch_size = 0` each fails with a `ZeroDivisionError`
division fault (so no silent infinity/NaN), not a validated
`InvalidArgument`; at every negative `global_batch_size` each returns
silently with a finite (sign-flipped) value and no error at all. -/
theorem C4_hinge_losses_do_not_validate (r f : List ℚ) (b : ℤ) (hb : b < 0) :
    discriminator_hinge_loss r f 0 = .error .zeroDivisionError
    ∧ generator_hinge_loss f 0 = .error .zeroDivisionError
    ∧ full_hinge_loss r f 0 = .error .zeroDivisionError
    ∧ (∃ v, discriminator_hinge_loss r f b = .ok v)
    ∧ (∃ v, generator_hinge_loss f b = .ok v)
    ∧ (∃ p, full_hinge_loss r f b = .ok p) := by
  have hb0 : b ≠ 0 := hb.ne
  refine ⟨?_, ?_, ?_, ?_, ?_, ?_⟩
  · simp [discriminator_hinge_loss, pyFloatDivInt]
  · simp [generator_hinge_loss, pyFloatDivInt]
  · simp [full_hinge_loss, generator_hinge_loss, pyFloatDivInt]
  · exact ⟨_, discriminator_hinge_loss_ok r f b hb0⟩
  · exact ⟨_, generator_hinge_loss_ok f b hb0⟩
  · exact ⟨_, full_hinge_loss_ok r f b _ _
      (generator_hinge_loss_ok f b hb0) (discriminator_hinge_loss_ok r f b hb0)⟩

/-- C4 amended witness: the amended theorem instantiated at `r = [0]`,
`f = [0]`, `b = -1`. -/
theorem C4_witness :
    (-1 : ℤ) < 0 ∧
    (discriminator_hinge_loss [0] [0] 0 = .error .zeroDivisionError
    ∧ generator_hinge_loss [0] 0 = .error .zeroDivisionError
    ∧ full_hinge_loss [0] [0] 0 = .error .zeroDivisionError
    ∧ (∃ v, discriminator_hinge_loss [0] [0] (-1) = .ok v)
    ∧ (∃ v, generator_hinge_loss [0] (-1) = .ok v)
    ∧ (∃ p, full_hinge_loss [0] [0] (-1) = .ok p)) :=
  ⟨by norm_num, C4_hinge_losses_do_not_validate [0] [0] (-1) (by norm_num)⟩

/-- C5: for every positive `log_every`, `train_model` derives the fit
schedule as `epochs = num_steps // log_every` and
`initial_epoch = initial_step // log_every` (Python floor division,
truncating any remainder of `num_steps`); in particular `num_steps = 100,
log_every = 10, initial_step = 0` gives `epochs = 10, initial_epoch = 0`;
`initial_step = 50` gives `initial_epoch = 5`; and `num_steps = 105`
still gives `epochs = 10` (the 5 remainder steps are silently dropped). -/
theorem C5_train_model_schedule_floor_division
    (num_steps log_every initial_step : ℤ) (hl : 0 < log_every) :
    train_model_schedule num_steps log_every (some initial_step) =
      .ok { epochs := Int.fdiv num_steps log_every,
            steps_per_epoch := log_every,
            initial_epoch := Int.fdiv initial_step log_every }
    ∧ train_model_schedule 100 10 (some 0) =
      .ok { epochs := 10, steps_per_epoch := 10, initial_epoch := 0 }
    ∧ train_model_schedule 100 10 (some 50) =
      .ok { epochs := 10, steps_per_epoch := 10, initial_epoch := 5 }
    ∧ train_model_schedule 105 10 (some 0) =
      .ok { epochs := 10, steps_per_epoch := 10, initial_epoch := 0 } := by
  refine ⟨?_, ?_, ?_, ?_⟩
  · simp [train_model_schedule, pyIntFloorDiv, pyOrZero_some, hl.ne']
  · norm_num [train_model_schedule, pyIntFloorDiv, pyOrZero]
    decide
  · norm_num [train_model_schedule, pyIntFloorDiv, pyOrZero]
    decide
  · norm_num [train_model_schedule, pyIntFloorDiv, pyOrZero]
    decide

/-- C5 witness: the theorem instantiated at `num_steps = 100`,
`log_every = 10`, `initial_step = 50`. -/
theorem C5_witness :
    (0 : ℤ) < 10 ∧
    (train_model_schedule 100 10 (some 50) =
      .ok { epochs := Int.fdiv 100 10, steps_per_epoch := 10,
            initial_epoch := Int.fdiv 50 10 }
    ∧ train_model_schedule 100 10 (some 0) =
      .ok { epochs := 10, steps_per_epoch := 10, initial_epoch := 0 }
    ∧ train_model_schedule 100 10 (some 50) =
      .ok { epochs := 10, steps_per_epoch := 10, initial_epoch := 5 }
    ∧ train_model_schedule 105 10 (some 0) =
      .ok { epochs := 10, steps_per_epoch := 10, initial_epoch := 0 }) :=
  ⟨by norm_num, C5_train_model_schedule_floor_division 100 10 50 (by norm_num)⟩

/-- C6 counterexample: at `num_steps = 100, log_every = 0,
initial_step = 0`, the schedule arithmetic of `train_model` fails with a
`ZeroDivisionError` division fault, which is not the `InvalidArgument`
kind the claim requires. -/
theorem C6_counterexample :
    train_model_schedule 100 0 (some 0) = .error .zeroDivisionError
    ∧ train_model_schedule 100 0 (some 0) ≠ .error .invalidArgument := by
  constructor
  · simp [train_model_schedule, pyIntFloorDiv]
  · simp [train_model_schedule, pyIntFloorDiv]

/-- C6 amended: `train_model` with `log_every = 0` always fails (it does
not proceed or return a schedule), but the failure is the raw
`ZeroDivisionError` division fault, not a validated
`InvalidArgument`-kind error. -/
theorem C6_log_every_zero_division_fault (num_steps : ℤ)
    (initial_step : Option ℤ) :
    train_model_schedule num_steps 0 initial_step = .error .zeroDivisionError := by
  simp [train_model_schedule, pyIntFloorDiv]

/-- C7: for arbitrary rational score tensors and every positive integer
batch size, `discriminator_hinge_loss` succeeds with a non-negative
value. -/
theorem C7_discriminator_hinge_loss_nonneg (r f : List ℚ) (b : ℤ) (hb : 0 < b) :
    ∃ v, discriminator_hinge_loss r f b = .ok v ∧ 0 ≤ v := by
  refine ⟨_, discriminator_hinge_loss_ok r f b hb.ne', ?_⟩
  have hbq : (0 : ℚ) ≤ 1 / (b : ℚ) := by positivity
  have h1 := reduce_sum_relu_nonneg r (fun x => 1 - x)
  have h2 := reduce_sum_relu_nonneg f (fun x => 1 + x)
  exact mul_nonneg (add_nonneg h1 h2) hbq

/-- C7 witness: the theorem instantiated at `r = [-5]`, `f = [7]`,
`b = 2`. -/
theorem C7_witness :
    (0 : ℤ) < 2 ∧
    ∃ v, discriminator_hinge_loss [-5] [7] 2 = .ok v ∧ 0 ≤ v :=
  ⟨by norm_num, C7_discriminator_hinge_loss_nonneg [-5] [7] 2 (by norm_num)⟩

/-- C8: doubling the batch size halves the discriminator hinge loss:
for fixed tensors and positive `b`, `discriminator_hinge_loss r f (2*b)`
is exactly `discriminator_hinge_loss r f b` divided by 2. -/
theorem C8_discriminator_hinge_loss_scaling (r f : List ℚ) (b : ℤ) (hb : 0 < b) :
    ∃ v, discriminator_hinge_loss r f b = .ok v
      ∧ discriminator_hinge_loss r f (2 * b) = .ok (v / 2) := by
  have hb0 : b ≠ 0 := hb.ne'
  have h2b : 2 * b ≠ 0 := by positivity
  refine ⟨_, discriminator_hinge_loss_ok r f b hb0, ?_⟩
  rw [discriminator_hinge_loss_ok r f (2 * b) h2b]
  congr 1
  rw [mul_one_div, mul_one_div, div_div]
  push_cast
  rw [mul_comm]

/-- C8 witness: the theorem instantiated at `r = [0]`, `f = [0]`,
`b = 1`. -/
theorem C8_witness :
    (0 : ℤ) < 1 ∧
    ∃ v, discriminator_hinge_loss [0] [0] 1 = .ok v
      ∧ discriminator_hinge_loss [0] [0] (2 * 1) = .ok (v / 2) :=
  ⟨by norm_num, C8_discriminator_hinge_loss_scaling [0] [0] 1 (by norm_num)⟩

/-- C9: `imperative_minimize` evaluates `loss_fn` exactly once (the
side-effect state `s` undergoes exactly one application of `loss_fn`),
applies the optimizer update to the gradients of that single scalar with
respect to `var_list`, zipped positionally in the given order, and
returns exactly the scalar that `loss_fn` produced — not a recomputed or
post-update value. -/
theorem C9_imperative_minimize_spec {V G O σ : Type}
    (gradient : ℚ → List V → List G)
    (apply_gradients : List (G × V) → O → O)
    (loss_fn : σ → ℚ × σ) (var_list : List V) (s : σ) (opt : O) :
    imperative_minimize gradient apply_gradients loss_fn var_list s opt =
      ((loss_fn s).1, (loss_fn s).2,
       apply_gradients ((gradient (loss_fn s).1 var_list).zip var_list) opt) :=
  rfl

/-- C10: `train_model` tolerates `initial_step = None` (the annotation is
unenforced: `train_model` has no runtime type check): `None` is treated
exactly like `0` by `initial_step or 0`, the call does not fail, and the
schedule starts at `initial_epoch = 0`. -/
theorem C10_initial_step_none (num_steps log_every : ℤ) (hl : 0 < log_every) :
    train_model_schedule num_steps log_every none =
      train_model_schedule num_steps log_every (some 0)
    ∧ ∃ e, train_model_schedule num_steps log_every none =
        .ok { epochs := e, steps_per_epoch := log_every, initial_epoch := 0 } := by
  constructor
  · rfl
  · refine ⟨Int.fdiv num_steps log_every, ?_⟩
    simp [train_model_schedule, pyIntFloorDiv, pyOrZero, hl.ne', Int.zero_fdiv]

/-- C10 witness: the theorem instantiated at `num_steps = 100`,
`log_every = 10`. -/
theorem C10_witness :
    (0 : ℤ) < 10 ∧
    (train_model_schedule 100 10 none = train_model_schedule 100 10 (some 0)
    ∧ ∃ e, train_model_schedule 100 10 none =
        .ok { epochs := e, steps_per_epoch := 10, initial_epoch := 0 }) :=
  ⟨by norm_num, C10_initial_step_none 100 10 (by norm_num)⟩

end BigGAN
